import Mathlib

/-!
Verification of the Mupix6 converter plugin
(`main/lib/plugins/Mupix6ConverterPlugin.cc`, eudaq v1.2.2 external of the
eutelescope repository).

The development is a shallow embedding of the two conversion entry points:

* `getStandardSubEvent` — the quick-look single-event path
  (`Mupix6ConverterPlugin::GetStandardSubEvent`);
* `getLCIOSubEvent2` / `getLCIOSubEvent3` — the 2-frame and 3-frame
  aggregation paths (`Mupix6ConverterPlugin::GetLCIOSubEvent`).

The raw-frame bit parser (`TelescopeFrame::from_bytes`) is an external
collaborator; following the design, a raw block is represented directly by
its decoded content (hits, triggers, time-over-threshold entries, frame
timestamp).  Machine integers are modelled as `Nat`, with explicit masks
where the source masks.
-/

namespace Mupix

/-- Decoded hit of one telescope frame (`data.get_hit(j, MUPIX_TYPE)`):
raw row, raw column and the 8-bit raw hit timestamp. -/
structure RawHit where
  row : Nat
  col : Nat
  timestampRaw : Nat
  deriving DecidableEq

/-- Decoded external trigger (`data.get_trigger(j)`): absolute 64-bit
timestamp and the tag (0x1 for TLU triggers, 0xBA for generic ones). -/
structure RawTrigger where
  timestamp : Nat
  tag : Nat
  deriving DecidableEq

/-- Decoded time-over-threshold entry (`data.get_tot(j)`): 48-significant-bit
timestamp and 8-bit pulse length. -/
structure RawTimeOverThreshold where
  timestamp : Nat
  length : Nat
  deriving DecidableEq

/-- Decoded content of one raw block, i.e. the result of
`TelescopeFrame::from_bytes` on that block (the bit parser itself is an
external collaborator and is treated as a black box). -/
structure TelescopeFrame where
  hits : List RawHit
  triggers : List RawTrigger
  tots : List RawTimeOverThreshold
  timestamp : Nat
  deriving DecidableEq

/-- One raw block of a `RawDataEvent`: the block id (`source->GetID(i)`)
and the decoded frame content of its byte buffer. -/
structure RawBlock where
  id : Nat
  frame : TelescopeFrame
  deriving DecidableEq

/-- An input event as seen by the converter.  `rawBlocks = some bs` models a
successful `dynamic_cast<const RawDataEvent *>` yielding blocks `bs`;
`rawBlocks = none` models a failed cast.  `isBORE` / `isEORE` are the
begin-of-run / end-of-run marker flags of the event. -/
structure Event where
  isBORE : Bool
  isEORE : Bool
  rawBlocks : Option (List RawBlock)
  deriving DecidableEq

/-- Severity of an emitted diagnostic (`EUDAQ_ERROR` / `EUDAQ_WARN`). -/
inductive DiagLevel where
  | error
  | warn
  deriving DecidableEq

/-- One emitted diagnostic. -/
structure Diag where
  level : DiagLevel
  msg : String
  deriving DecidableEq

/-! ## Quick-look path (`GetStandardSubEvent`) -/

/-- Keep-condition of the quick-look hit loop, line 154 of the source:
`!(col==0&&row==0)||col>31||row>39`. -/
def mupixKeepQL (col row : Nat) : Bool :=
  !(col == 0 && row == 0) || decide (31 < col) || decide (39 < row)

/-- One `plane.SetPixel(index, x, y, signal, 0, 0)` call. -/
structure PixelEntry where
  index : Nat
  x : Nat
  y : Nat
  signal : Nat
  deriving DecidableEq

/-- Pixel entries produced by the inner hit loop of one block in the
quick-look path: hit `j` is placed at index `nhits + j` with
`SetPixel(nhits+j, row, col, 1, 0, 0)`, guarded by `mupixKeepQL`. -/
def qlBlockPixels (nhits : Nat) (hits : List RawHit) : List PixelEntry :=
  (List.enumFrom nhits hits).filterMap fun p =>
    if mupixKeepQL p.2.col p.2.row then some ⟨p.1, p.2.row, p.2.col, 1⟩ else none

/-- The outer block loop of the quick-look second pass (lines 146-159):
`nhits` accumulates the hit counts of the blocks already processed. -/
def qlLoop : List RawBlock → Nat → List PixelEntry
  | [], _ => []
  | b :: bs, nhits =>
      qlBlockPixels nhits b.frame.hits ++ qlLoop bs (nhits + b.frame.hits.length)

/-- Total hit count accumulated by the first pass (lines 135-140):
`nhits += data.num_hits()` over all blocks. -/
def totalHits (bs : List RawBlock) : Nat :=
  (bs.map (fun b => b.frame.hits.length)).sum

/-- The id of the trailing block, `source->GetID(source->NumBlocks()-1)`.
The source indexes block `NumBlocks()-1`, so this is only meaningful for a
non-empty block list; theorems about it carry a non-emptiness hypothesis. -/
def lastId (bs : List RawBlock) : Nat :=
  ((bs.getLast?).map RawBlock.id).getD 0

/-- A `StandardPlane` as configured by the quick-look path: sensor id 71,
geometry from `SetSizeZS(40, 32, nhits)`, TLU id from `SetTLUEvent`, and the
`SetPixel` calls issued. -/
structure StandardPlane where
  sensorId : Nat
  cols : Nat
  rows : Nat
  declaredHits : Nat
  tluEvent : Nat
  pixels : List PixelEntry
  deriving DecidableEq

/-- Observable outcome of `GetStandardSubEvent`: the planes added to the
destination event, the diagnostics emitted, and the returned value.
`ret = none` models the path on which the function reaches its end without
executing any `return` statement (the body is entirely inside the
`dynamic_cast` conditional), leaving the returned `bool` undefined. -/
structure StdResult where
  planes : List StandardPlane
  diags : List Diag
  ret : Option Bool
  deriving DecidableEq

/-- Shallow embedding of `Mupix6ConverterPlugin::GetStandardSubEvent`
(lines 110-172). -/
def getStandardSubEvent (ev : Event) : StdResult :=
  match ev.rawBlocks with
  | none => ⟨[], [], none⟩
  | some bs =>
    if ev.isBORE then
      ⟨[], [⟨DiagLevel.error, "got BORE during conversion"⟩], some true⟩
    else if ev.isEORE then
      ⟨[], [⟨DiagLevel.warn, "got EORE during conversion"⟩], some true⟩
    else
      let plane : StandardPlane :=
        ⟨71, 40, 32, totalHits bs, lastId bs, qlLoop bs 0⟩
      if 100 < lastId bs then ⟨[plane], [], some true⟩
      else ⟨[⟨71, 40, 32, 0, lastId bs, []⟩], [], some true⟩

/-! ## Aggregation path (`GetLCIOSubEvent`) -/

/-- ToT packing used at lines 324, 389, 606, 671, 736:
`(tot.timestamp() & 0xFFFFFFFFFFFF) << 8 | (tot.length() & 0xFF)`. -/
def encodeTot (ts len : Nat) : Nat :=
  ((ts &&& 0xFFFFFFFFFFFF) <<< 8) ||| (len &&& 0xFF)

/-- An `EUTelExternalTrigger` as constructed by the plugin: a 64-bit
timestamp value and a label. -/
structure ExtTrigger where
  timestamp : Nat
  label : Nat
  deriving DecidableEq

/-- An `EUTelMuPixel` as constructed by the plugin.  The first two
constructor arguments are the coordinate slots; the plugin passes
`(hit.row(), hit.column())` there (swapped with respect to the commented-out
original `(column, row)` order). -/
structure MuPixel where
  coordA : Nat
  coordB : Nat
  signal : Nat
  time : Nat
  hitTimestamp : Nat
  frameTimestamp : Nat
  deriving DecidableEq

/-- Validity guard of the aggregation hit loop (lines 348, 412, 630, 694,
759): `hit.row() < MUPIX_SENSOR_NUM_COLS(40) && hit.column() <
MUPIX_SENSOR_NUM_ROWS(32)`. -/
def aggHitValid (h : RawHit) : Bool :=
  decide (h.row < 40) && decide (h.col < 32)

/-- The `EUTelMuPixel` built for a valid hit: swapped coordinates, binary
signal 1, time 0, 8-bit raw hit timestamp, frame timestamp masked to
32 bits (`data.timestamp() & 0xFFFFFFFF`). -/
def mkMuPixel (f : TelescopeFrame) (h : RawHit) : MuPixel :=
  ⟨h.row, h.col, 1, 0, h.timestampRaw, f.timestamp &&& 0xFFFFFFFF⟩

/-- The `EUTelExternalTrigger` built for a ToT entry: packed value with the
fixed ToT label 0x2. -/
def totEntry (t : RawTimeOverThreshold) : ExtTrigger :=
  ⟨encodeTot t.timestamp t.length, 0x2⟩

/-- Trigger entries appended for one block, in order: the trigger loop
passes `(trig.timestamp(), trig.tag())` through unchanged. -/
def blockTriggers (f : TelescopeFrame) : List ExtTrigger :=
  f.triggers.map (fun t => ⟨t.timestamp, t.tag⟩)

/-- ToT entries appended for one block, in order. -/
def blockTots (f : TelescopeFrame) : List ExtTrigger :=
  f.tots.map totEntry

/-- Pixels appended for one block, in order: only hits passing
`aggHitValid` are appended. -/
def blockPixels (f : TelescopeFrame) : List MuPixel :=
  f.hits.filterMap (fun h => if aggHitValid h then some (mkMuPixel f h) else none)

/-- Warning diagnostics printed for one block: one `(row(), column())` pair
per hit failing `aggHitValid` (the `WARNING: col = ..., row = ...` print). -/
def blockWarnings (f : TelescopeFrame) : List (Nat × Nat) :=
  f.hits.filterMap (fun h => if aggHitValid h then none else some (h.row, h.col))

/-- Accumulated contents of the three per-call readout frames
(`pixels`, `triggers`, `tots` interfacers) and the warnings printed. -/
structure AggState where
  pixels : List MuPixel
  triggers : List ExtTrigger
  tots : List ExtTrigger
  warnings : List (Nat × Nat)
  deriving DecidableEq

/-- State before any block is processed. -/
def emptyAgg : AggState := ⟨[], [], [], []⟩

/-- Processing of one decoded block inside the aggregation loops: the
trigger loop, the ToT loop and the hit loop each append to their stream. -/
def processBlock (st : AggState) (f : TelescopeFrame) : AggState :=
  { pixels := st.pixels ++ blockPixels f
    triggers := st.triggers ++ blockTriggers f
    tots := st.tots ++ blockTots f
    warnings := st.warnings ++ blockWarnings f }

/-- The per-event block loop (`for i in 0..NumBlocks: from_bytes; ...`). -/
def processEvent (st : AggState) (bs : List RawBlock) : AggState :=
  bs.foldl (fun s b => processBlock s b.frame) st

/-- The destination LCIO event, restricted to the three collections the
plugin touches.  `none` means the named collection is absent
(`getCollection` throws `DataNotAvailableException`); `some recs` means it
exists and holds the records `recs`. -/
structure LCEvent where
  mupixColl : Option (List (List MuPixel))
  triggerColl : Option (List (List ExtTrigger))
  totColl : Option (List (List ExtTrigger))
  deriving DecidableEq

/-- Insertion of the completed record into one named collection
(lines 422-444 and 769-791): the record is pushed unconditionally
(`push_back`); `addCollection` is performed exactly when the collection did
not pre-exist and its size after the push is non-zero.  Returns the
resulting collection slot of the destination event and whether
`addCollection` was performed (`true` = registered, `false` = the
`FAILED to convert` message is printed). -/
def insertStream {α : Type} (pre : Option (List (List α))) (record : List α) :
    Option (List (List α)) × Bool :=
  match pre with
  | some recs => (some (recs ++ [record]), false)
  | none =>
      let coll := [record]
      if coll.length != 0 then (some coll, true) else (none, false)

/-- Observable outcome of one `GetLCIOSubEvent` call: the contents of the
three pushed records, the destination event afterwards, the three
`FAILED to convert` flags, the out-of-range warnings printed, the
BORE/EORE diagnostics and the returned value. -/
structure LcioResult where
  pixelRecord : List MuPixel
  triggerRecord : List ExtTrigger
  totRecord : List ExtTrigger
  dest : LCEvent
  failedMupix : Bool
  failedTrigger : Bool
  failedTot : Bool
  warnings : List (Nat × Nat)
  diags : List Diag
  ret : Bool
  deriving DecidableEq

/-- Shallow embedding of the 2-frame
`Mupix6ConverterPlugin::GetLCIOSubEvent` (lines 176-449). -/
def getLCIOSubEvent2 (dest : LCEvent) (ev next : Event) : LcioResult :=
  if ev.isBORE then
    ⟨[], [], [], dest, false, false, false, [],
      [⟨DiagLevel.error, "got BORE during lcio conversion"⟩], true⟩
  else if ev.isEORE then
    ⟨[], [], [], dest, false, false, false, [],
      [⟨DiagLevel.warn, "got EORE during lcio conversion"⟩], true⟩
  else
    match ev.rawBlocks, next.rawBlocks with
    | some bs1, some bs2 =>
        let st := processEvent (processEvent emptyAgg bs1) bs2
        let m := insertStream dest.mupixColl st.pixels
        let t := insertStream dest.triggerColl st.triggers
        let o := insertStream dest.totColl st.tots
        ⟨st.pixels, st.triggers, st.tots, ⟨m.1, t.1, o.1⟩,
          !m.2, !t.2, !o.2, st.warnings, [], true⟩
    | _, _ => ⟨[], [], [], dest, false, false, false, [], [], true⟩

/-- Shallow embedding of the 3-frame
`Mupix6ConverterPlugin::GetLCIOSubEvent` (lines 455-797). -/
def getLCIOSubEvent3 (dest : LCEvent) (ev next nextNext : Event) : LcioResult :=
  if ev.isBORE then
    ⟨[], [], [], dest, false, false, false, [],
      [⟨DiagLevel.error, "got BORE during lcio conversion"⟩], true⟩
  else if ev.isEORE then
    ⟨[], [], [], dest, false, false, false, [],
      [⟨DiagLevel.warn, "got EORE during lcio conversion"⟩], true⟩
  else
    match ev.rawBlocks, next.rawBlocks, nextNext.rawBlocks with
    | some bs1, some bs2, some bs3 =>
        let st := processEvent (processEvent (processEvent emptyAgg bs1) bs2) bs3
        let m := insertStream dest.mupixColl st.pixels
        let t := insertStream dest.triggerColl st.triggers
        let o := insertStream dest.totColl st.tots
        ⟨st.pixels, st.triggers, st.tots, ⟨m.1, t.1, o.1⟩,
          !m.2, !t.2, !o.2, st.warnings, [], true⟩
    | _, _, _ => ⟨[], [], [], dest, false, false, false, [], [], true⟩

/-! ## Sample inputs used by witnesses and counterexamples -/

/-- Sample decoded frame matching the worked example of the design: hits
`[(row=0,col=0),(row=5,col=10)]`, one trigger `(ts=100, tag=0x1)`, one ToT
`(ts=200, len=3)`. -/
def sampleFrame : TelescopeFrame :=
  ⟨[⟨0, 0, 0⟩, ⟨5, 10, 7⟩], [⟨100, 1⟩], [⟨200, 3⟩], 4242⟩

/-- Sample raw block with id 123 (above the quick-look threshold 100). -/
def sampleBlock : RawBlock := ⟨123, sampleFrame⟩

/-- Sample non-special raw event with a single block. -/
def sampleEvent : Event := ⟨false, false, some [sampleBlock]⟩

/-- A destination event with none of the three collections present. -/
def emptyLC : LCEvent := ⟨none, none, none⟩

/-- A non-special raw event with no blocks at all. -/
def emptyWindowEvent : Event := ⟨false, false, some []⟩

/-- A non-special input event for which the `dynamic_cast` to
`RawDataEvent` fails. -/
def nonRawEvent : Event := ⟨false, false, none⟩

/-! ## Helper lemmas -/

theorem filterMap_ite_eq_filter_map {α β : Type} (p : α → Bool) (g : α → β)
    (l : List α) :
    l.filterMap (fun a => if p a then some (g a) else none) = (l.filter p).map g := by
  induction l with
  | nil => rfl
  | cons a l ih =>
      by_cases h : p a <;> simp [List.filterMap_cons, List.filter_cons, h, ih]

theorem filterMap_ite_not_eq_filter_map {α β : Type} (p : α → Bool) (g : α → β)
    (l : List α) :
    l.filterMap (fun a => if p a then none else some (g a))
      = (l.filter (fun a => !p a)).map g := by
  induction l with
  | nil => rfl
  | cons a l ih =>
      by_cases h : p a <;> simp [List.filterMap_cons, List.filter_cons, h, ih]

/-- Declarative description of the per-event aggregation loop. -/
theorem processEvent_spec (bs : List RawBlock) (st : AggState) :
    processEvent st bs =
      ⟨st.pixels ++ bs.flatMap (fun b => blockPixels b.frame),
       st.triggers ++ bs.flatMap (fun b => blockTriggers b.frame),
       st.tots ++ bs.flatMap (fun b => blockTots b.frame),
       st.warnings ++ bs.flatMap (fun b => blockWarnings b.frame)⟩ := by
  induction bs generalizing st with
  | nil => simp [processEvent]
  | cons b bs ih =>
      have h1 : processEvent st (b :: bs) = processEvent (processBlock st b.frame) bs := rfl
      rw [h1, ih]
      simp [processBlock, List.flatMap_cons, List.append_assoc]

/-- The pixel record accumulated over a window of events, declaratively. -/
theorem window_pixels (bs1 bs2 : List RawBlock) :
    (processEvent (processEvent emptyAgg bs1) bs2).pixels
      = (bs1 ++ bs2).flatMap (fun b => blockPixels b.frame) := by
  rw [processEvent_spec, processEvent_spec, List.flatMap_append]
  simp [emptyAgg]

theorem window_state (bs1 bs2 : List RawBlock) :
    processEvent (processEvent emptyAgg bs1) bs2 =
      ⟨(bs1 ++ bs2).flatMap (fun b => blockPixels b.frame),
       (bs1 ++ bs2).flatMap (fun b => blockTriggers b.frame),
       (bs1 ++ bs2).flatMap (fun b => blockTots b.frame),
       (bs1 ++ bs2).flatMap (fun b => blockWarnings b.frame)⟩ := by
  rw [processEvent_spec, processEvent_spec, List.flatMap_append, List.flatMap_append,
    List.flatMap_append, List.flatMap_append]
  simp [emptyAgg]

theorem window_state3 (bs1 bs2 bs3 : List RawBlock) :
    processEvent (processEvent (processEvent emptyAgg bs1) bs2) bs3 =
      ⟨(bs1 ++ bs2 ++ bs3).flatMap (fun b => blockPixels b.frame),
       (bs1 ++ bs2 ++ bs3).flatMap (fun b => blockTriggers b.frame),
       (bs1 ++ bs2 ++ bs3).flatMap (fun b => blockTots b.frame),
       (bs1 ++ bs2 ++ bs3).flatMap (fun b => blockWarnings b.frame)⟩ := by
  rw [window_state, processEvent_spec]
  simp [List.flatMap_append]

/-- The quick-look block loop, rewritten over the concatenated hit list:
the running index `nhits + j` is exactly the global hit position. -/
theorem qlLoop_spec (bs : List RawBlock) (n : Nat) :
    qlLoop bs n =
      (List.enumFrom n (bs.flatMap (fun b => b.frame.hits))).filterMap
        (fun p => if mupixKeepQL p.2.col p.2.row
          then some ⟨p.1, p.2.row, p.2.col, 1⟩ else none) := by
  induction bs generalizing n with
  | nil => rfl
  | cons b bs ih =>
      rw [List.flatMap_cons, List.enumFrom_append, List.filterMap_append]
      show qlBlockPixels n b.frame.hits ++ qlLoop bs (n + b.frame.hits.length) = _
      rw [ih]
      rfl

theorem totalHits_eq_length (bs : List RawBlock) :
    totalHits bs = (bs.flatMap (fun b => b.frame.hits)).length := by
  simp [totalHits, List.length_flatMap, Function.comp_def]

/-- Drop predicate of the quick-look path, written as the design states it:
`row==0 && col==0 && col<=31 && row<=39`. -/
def quirkDrop (h : RawHit) : Bool :=
  h.row == 0 && h.col == 0 && decide (h.col ≤ 31) && decide (h.row ≤ 39)

theorem keepQL_eq_not_quirkDrop (h : RawHit) :
    mupixKeepQL h.col h.row = !quirkDrop h := by
  rw [Bool.eq_iff_iff]
  simp [mupixKeepQL, quirkDrop]
  omega

theorem insertStream_some {α : Type} (recs : List (List α)) (r : List α) :
    insertStream (some recs) r = (some (recs ++ [r]), false) := rfl

theorem insertStream_none {α : Type} (r : List α) :
    insertStream (none : Option (List (List α))) r = (some [r], true) := rfl

theorem blockPixels_eq (f : TelescopeFrame) :
    blockPixels f = (f.hits.filter aggHitValid).map (mkMuPixel f) :=
  filterMap_ite_eq_filter_map _ _ _

theorem blockWarnings_eq (f : TelescopeFrame) :
    blockWarnings f
      = (f.hits.filter (fun h => !aggHitValid h)).map (fun h => (h.row, h.col)) :=
  filterMap_ite_not_eq_filter_map _ _ _

theorem or_shiftRight (x y n : Nat) : (x ||| y) >>> n = x >>> n ||| y >>> n := by
  apply Nat.eq_of_testBit_eq
  intro i
  simp [Nat.testBit_or, Nat.testBit_shiftRight]

theorem and_or_right (x y z : Nat) : (x ||| y) &&& z = (x &&& z) ||| (y &&& z) := by
  rw [Nat.and_comm, Nat.and_or_distrib_left, Nat.and_comm z x, Nat.and_comm z y]

/-! ## ToT encoding arithmetic -/

/-- Timestamp part recovered from an encoded ToT value. -/
def totTimestampOf (v : Nat) : Nat := v >>> 8

/-- Length part recovered from an encoded ToT value. -/
def totLengthOf (v : Nat) : Nat := v &&& 0xFF

theorem mask48_eq : (0xFFFFFFFFFFFF : Nat) = 2 ^ 48 - 1 := by norm_num

theorem mask8_eq : (0xFF : Nat) = 2 ^ 8 - 1 := by norm_num

theorem encodeTot_eq_mod (ts len : Nat) :
    encodeTot ts len = ((ts % 2 ^ 48) <<< 8) ||| (len % 2 ^ 8) := by
  rw [encodeTot, mask48_eq, mask8_eq, Nat.and_pow_two_sub_one_eq_mod,
    Nat.and_pow_two_sub_one_eq_mod]

theorem shiftRight8_eq_zero (len : Nat) (h : len < 2 ^ 8) : len >>> 8 = 0 := by
  rw [Nat.shiftRight_eq_div_pow]
  exact Nat.div_eq_of_lt h

theorem encodeTot_timestamp (ts len : Nat) (h1 : ts < 2 ^ 48) (h2 : len < 2 ^ 8) :
    totTimestampOf (encodeTot ts len) = ts := by
  rw [encodeTot_eq_mod, Nat.mod_eq_of_lt h1, Nat.mod_eq_of_lt h2, totTimestampOf,
    or_shiftRight, Nat.shiftLeft_shiftRight, shiftRight8_eq_zero len h2, Nat.or_zero]

theorem encodeTot_length (ts len : Nat) (h2 : len < 2 ^ 8) :
    totLengthOf (encodeTot ts len) = len := by
  rw [encodeTot_eq_mod, Nat.mod_eq_of_lt h2, totLengthOf, and_or_right, mask8_eq,
    Nat.and_pow_two_sub_one_eq_mod, Nat.and_pow_two_sub_one_eq_mod,
    Nat.shiftLeft_eq, Nat.mul_mod_left, Nat.mod_eq_of_lt h2, Nat.zero_or]

theorem encodeTot_overflow (len : Nat) :
    totTimestampOf (encodeTot (2 ^ 48) len) = 0 := by
  rw [encodeTot_eq_mod, Nat.mod_self, Nat.zero_shiftLeft, Nat.zero_or, totTimestampOf,
    shiftRight8_eq_zero _ (Nat.lt_of_lt_of_le (Nat.mod_lt len (by norm_num)) (by omega))]

/-! ## Claim C4 -/

/-- C4: every ToT entry is encoded as `(timestamp & 0xFFFFFFFFFFFF) << 8 |
(length & 0xFF)` with the fixed label 0x2; for `timestamp < 2^48` and
`length < 2^8` both components are recovered losslessly from the encoded
value, and a timestamp equal to `2^48` masks to 0. -/
theorem c4_tot_encoding_roundtrip (ts len : Nat) (h1 : ts < 2 ^ 48) (h2 : len < 2 ^ 8) :
    (∀ t : RawTimeOverThreshold, totEntry t =
        ⟨((t.timestamp &&& 0xFFFFFFFFFFFF) <<< 8) ||| (t.length &&& 0xFF), 0x2⟩)
    ∧ (∀ f : TelescopeFrame,
        blockTots f = f.tots.map (fun t => ⟨encodeTot t.timestamp t.length, 0x2⟩))
    ∧ totTimestampOf (encodeTot ts len) = ts
    ∧ totLengthOf (encodeTot ts len) = len
    ∧ totTimestampOf (encodeTot (2 ^ 48) len) = 0 :=
  ⟨fun _ => rfl, fun _ => rfl,
   encodeTot_timestamp ts len h1 h2,
   encodeTot_length ts len h2,
   encodeTot_overflow len⟩

/-- Witness for C4 at the design's worked example `(ts, len) = (200, 3)`. -/
theorem c4_tot_encoding_roundtrip_witness :
    (200 : Nat) < 2 ^ 48 ∧ (3 : Nat) < 2 ^ 8
    ∧ totTimestampOf (encodeTot 200 3) = 200
    ∧ totLengthOf (encodeTot 200 3) = 3
    ∧ totTimestampOf (encodeTot (2 ^ 48) 3) = 0 :=
  ⟨by decide, by decide,
   (c4_tot_encoding_roundtrip 200 3 (by decide) (by decide)).2.2.1,
   (c4_tot_encoding_roundtrip 200 3 (by decide) (by decide)).2.2.2.1,
   (c4_tot_encoding_roundtrip 200 3 (by decide) (by decide)).2.2.2.2⟩

/-! ## Claim C1 -/

/-- C1: in the N-frame aggregation path, every decoded hit passing the
stored-coordinate guard (`aggHitValid`, i.e. row-slot value < 40 and
col-slot value < 32) contributes exactly one pixel entry to the output
pixel record, in frame-then-block-then-within-block arrival order; hits
failing the guard are not appended and each produces exactly one warning
diagnostic with its coordinates, the call still returning success. -/
theorem c1_agg_hits_exactly_once (dest : LCEvent) (ev next nextNext : Event)
    (bs1 bs2 bs3 : List RawBlock)
    (h1 : ev.isBORE = false) (h2 : ev.isEORE = false)
    (hr1 : ev.rawBlocks = some bs1) (hr2 : next.rawBlocks = some bs2)
    (hr3 : nextNext.rawBlocks = some bs3) :
    ((getLCIOSubEvent2 dest ev next).pixelRecord
        = (bs1 ++ bs2).flatMap (fun b =>
            (b.frame.hits.filter aggHitValid).map (mkMuPixel b.frame))
      ∧ (getLCIOSubEvent2 dest ev next).warnings
        = (bs1 ++ bs2).flatMap (fun b =>
            (b.frame.hits.filter (fun h => !aggHitValid h)).map
              (fun h => (h.row, h.col)))
      ∧ (getLCIOSubEvent2 dest ev next).ret = true)
    ∧ ((getLCIOSubEvent3 dest ev next nextNext).pixelRecord
        = (bs1 ++ bs2 ++ bs3).flatMap (fun b =>
            (b.frame.hits.filter aggHitValid).map (mkMuPixel b.frame))
      ∧ (getLCIOSubEvent3 dest ev next nextNext).warnings
        = (bs1 ++ bs2 ++ bs3).flatMap (fun b =>
            (b.frame.hits.filter (fun h => !aggHitValid h)).map
              (fun h => (h.row, h.col)))
      ∧ (getLCIOSubEvent3 dest ev next nextNext).ret = true) := by
  simp only [getLCIOSubEvent2, getLCIOSubEvent3, h1, h2, hr1, hr2, hr3,
    Bool.false_eq_true, if_false]
  rw [window_state3, window_state]
  simp [blockPixels_eq, blockWarnings_eq]

/-- Witness for C1 at the sample input (one valid and no invalid hit
coming per frame; the (0,0) hit is valid for the aggregation guard). -/
theorem c1_agg_hits_exactly_once_witness :
    sampleEvent.isBORE = false ∧ sampleEvent.isEORE = false
    ∧ sampleEvent.rawBlocks = some [sampleBlock]
    ∧ (getLCIOSubEvent2 emptyLC sampleEvent sampleEvent).pixelRecord
        = ([sampleBlock] ++ [sampleBlock]).flatMap (fun b =>
            (b.frame.hits.filter aggHitValid).map (mkMuPixel b.frame)) :=
  ⟨rfl, rfl, rfl,
   (c1_agg_hits_exactly_once emptyLC sampleEvent sampleEvent sampleEvent
      [sampleBlock] [sampleBlock] [sampleBlock] rfl rfl rfl rfl rfl).1.1⟩

/-! ## Claim C3 -/

/-- Frame holding the design example trigger `(ts=100, tag=0x1)` only. -/
def trigFrame : TelescopeFrame := ⟨[], [⟨100, 1⟩], [], 0⟩

/-- Non-special raw event with one block decoding to `trigFrame`. -/
def trigEvent : Event := ⟨false, false, some [⟨500, trigFrame⟩]⟩

/-- C3 counterexample: a decoded trigger with timestamp 100 and tag 0x1 is
stored as the pair (timestamp 100, label 0x1), not as the packed value
`100<<8 | 0x1`: the stored 64-bit timestamp value of the only trigger
record entry is 100, not 25601. -/
theorem c3_counterexample :
    (getLCIOSubEvent2 emptyLC trigEvent emptyWindowEvent).triggerRecord
        = [⟨100, 1⟩]
    ∧ ¬((getLCIOSubEvent2 emptyLC trigEvent emptyWindowEvent).triggerRecord.map
          ExtTrigger.timestamp = [(100 : Nat) <<< 8 ||| 0x1]) := by
  refine ⟨rfl, ?_⟩
  decide

/-- C3 (amended): in the aggregation path a decoded trigger entry is
stored in the trigger record with its timestamp and tag carried through
unchanged (timestamp 100, label 0x1 for the example); the `<<8` packing is
applied only to ToT entries. -/
theorem c3_trigger_passthrough (dest : LCEvent) (ev next : Event)
    (bs1 bs2 : List RawBlock)
    (h1 : ev.isBORE = false) (h2 : ev.isEORE = false)
    (hr1 : ev.rawBlocks = some bs1) (hr2 : next.rawBlocks = some bs2) :
    (getLCIOSubEvent2 dest ev next).triggerRecord
      = (bs1 ++ bs2).flatMap (fun b =>
          b.frame.triggers.map (fun t => (⟨t.timestamp, t.tag⟩ : ExtTrigger)))
    ∧ (getLCIOSubEvent2 dest ev next).totRecord
      = (bs1 ++ bs2).flatMap (fun b =>
          b.frame.tots.map
            (fun t => (⟨encodeTot t.timestamp t.length, 0x2⟩ : ExtTrigger))) := by
  simp only [getLCIOSubEvent2, h1, h2, hr1, hr2, Bool.false_eq_true, if_false]
  rw [window_state]
  exact ⟨rfl, rfl⟩

/-- Witness for C3 (amended) at the example trigger `(100, 0x1)`. -/
theorem c3_trigger_passthrough_witness :
    trigEvent.isBORE = false ∧ trigEvent.isEORE = false
    ∧ trigEvent.rawBlocks = some [⟨500, trigFrame⟩]
    ∧ emptyWindowEvent.rawBlocks = some []
    ∧ (getLCIOSubEvent2 emptyLC trigEvent emptyWindowEvent).triggerRecord
        = (([⟨500, trigFrame⟩] : List RawBlock) ++ []).flatMap (fun b =>
            b.frame.triggers.map
              (fun (t : RawTrigger) => (⟨t.timestamp, t.tag⟩ : ExtTrigger))) :=
  ⟨rfl, rfl, rfl, rfl,
   (c3_trigger_passthrough emptyLC trigEvent emptyWindowEvent
      [⟨500, trigFrame⟩] [] rfl rfl rfl rfl).1⟩

/-! ## Claim C2 -/

/-- C2 counterexample: for a window of frames with no blocks (hence empty
merged records) and no pre-existing collections, all three records are
empty and yet none of the three stream insertions reports a conversion
failure — all three are registered as successes, contradicting the claim
that a newly-created-but-still-empty record is reported as a failure. -/
theorem c2_counterexample :
    (getLCIOSubEvent2 emptyLC emptyWindowEvent emptyWindowEvent).pixelRecord = []
    ∧ (getLCIOSubEvent2 emptyLC emptyWindowEvent emptyWindowEvent).triggerRecord = []
    ∧ (getLCIOSubEvent2 emptyLC emptyWindowEvent emptyWindowEvent).totRecord = []
    ∧ (getLCIOSubEvent2 emptyLC emptyWindowEvent emptyWindowEvent).failedMupix = false
    ∧ (getLCIOSubEvent2 emptyLC emptyWindowEvent emptyWindowEvent).failedTrigger = false
    ∧ (getLCIOSubEvent2 emptyLC emptyWindowEvent emptyWindowEvent).failedTot = false :=
  ⟨rfl, rfl, rfl, rfl, rfl, rfl⟩

theorem insertStream_snd {α : Type} (pre : Option (List (List α))) (r : List α) :
    (insertStream pre r).2 = !pre.isSome := by
  cases pre <;> rfl

/-- C2 (amended): aggregating a window of N valid raw frames with no
blocks produces empty pixel, trigger and ToT records and returns success;
each of the three stream insertions reports a conversion failure exactly
when its collection already existed — the pushed (empty) record makes a
newly created collection non-empty at check time, so the
newly-created-but-empty case is registered as a success, not a failure. -/
theorem c2_empty_window (dest : LCEvent) (ev next nextNext : Event)
    (h1 : ev.isBORE = false) (h2 : ev.isEORE = false)
    (hr1 : ev.rawBlocks = some []) (hr2 : next.rawBlocks = some [])
    (hr3 : nextNext.rawBlocks = some []) :
    ((getLCIOSubEvent2 dest ev next).pixelRecord = []
      ∧ (getLCIOSubEvent2 dest ev next).triggerRecord = []
      ∧ (getLCIOSubEvent2 dest ev next).totRecord = []
      ∧ (getLCIOSubEvent2 dest ev next).ret = true
      ∧ (getLCIOSubEvent2 dest ev next).failedMupix = dest.mupixColl.isSome
      ∧ (getLCIOSubEvent2 dest ev next).failedTrigger = dest.triggerColl.isSome
      ∧ (getLCIOSubEvent2 dest ev next).failedTot = dest.totColl.isSome)
    ∧ ((getLCIOSubEvent3 dest ev next nextNext).pixelRecord = []
      ∧ (getLCIOSubEvent3 dest ev next nextNext).triggerRecord = []
      ∧ (getLCIOSubEvent3 dest ev next nextNext).totRecord = []
      ∧ (getLCIOSubEvent3 dest ev next nextNext).ret = true
      ∧ (getLCIOSubEvent3 dest ev next nextNext).failedMupix = dest.mupixColl.isSome
      ∧ (getLCIOSubEvent3 dest ev next nextNext).failedTrigger = dest.triggerColl.isSome
      ∧ (getLCIOSubEvent3 dest ev next nextNext).failedTot = dest.totColl.isSome) := by
  simp only [getLCIOSubEvent2, getLCIOSubEvent3, h1, h2, hr1, hr2, hr3,
    Bool.false_eq_true, if_false]
  simp [processEvent, emptyAgg, insertStream_snd]

/-- Witness for C2 (amended) with no pre-existing collections. -/
theorem c2_empty_window_witness :
    emptyWindowEvent.isBORE = false ∧ emptyWindowEvent.rawBlocks = some []
    ∧ (getLCIOSubEvent2 emptyLC emptyWindowEvent emptyWindowEvent).pixelRecord = []
    ∧ (getLCIOSubEvent2 emptyLC emptyWindowEvent emptyWindowEvent).failedMupix
        = emptyLC.mupixColl.isSome :=
  ⟨rfl, rfl,
   (c2_empty_window emptyLC emptyWindowEvent emptyWindowEvent emptyWindowEvent
      rfl rfl rfl rfl rfl).1.1,
   (c2_empty_window emptyLC emptyWindowEvent emptyWindowEvent emptyWindowEvent
      rfl rfl rfl rfl rfl).1.2.2.2.2.1⟩

/-! ## Claim C10 -/

/-- C10: in both aggregation entry points the merged records are pushed
into their collections before the success check; when a stream reports a
failure because its collection pre-existed, the record has nonetheless
already been appended to that pre-existing collection, and a newly created
collection holds exactly the one pushed record at check time (and is
registered, never reported as failed). -/
theorem c10_push_before_check (dest : LCEvent) (ev next nextNext : Event)
    (bs1 bs2 bs3 : List RawBlock)
    (h1 : ev.isBORE = false) (h2 : ev.isEORE = false)
    (hr1 : ev.rawBlocks = some bs1) (hr2 : next.rawBlocks = some bs2)
    (hr3 : nextNext.rawBlocks = some bs3) :
    ((∀ recs, dest.mupixColl = some recs →
        (getLCIOSubEvent2 dest ev next).dest.mupixColl
            = some (recs ++ [(getLCIOSubEvent2 dest ev next).pixelRecord])
        ∧ (getLCIOSubEvent2 dest ev next).failedMupix = true)
      ∧ (dest.mupixColl = none →
        (getLCIOSubEvent2 dest ev next).dest.mupixColl
            = some [(getLCIOSubEvent2 dest ev next).pixelRecord]
        ∧ (getLCIOSubEvent2 dest ev next).failedMupix = false)
      ∧ (∀ recs, dest.triggerColl = some recs →
        (getLCIOSubEvent2 dest ev next).dest.triggerColl
            = some (recs ++ [(getLCIOSubEvent2 dest ev next).triggerRecord])
        ∧ (getLCIOSubEvent2 dest ev next).failedTrigger = true)
      ∧ (dest.triggerColl = none →
        (getLCIOSubEvent2 dest ev next).dest.triggerColl
            = some [(getLCIOSubEvent2 dest ev next).triggerRecord]
        ∧ (getLCIOSubEvent2 dest ev next).failedTrigger = false)
      ∧ (∀ recs, dest.totColl = some recs →
        (getLCIOSubEvent2 dest ev next).dest.totColl
            = some (recs ++ [(getLCIOSubEvent2 dest ev next).totRecord])
        ∧ (getLCIOSubEvent2 dest ev next).failedTot = true)
      ∧ (dest.totColl = none →
        (getLCIOSubEvent2 dest ev next).dest.totColl
            = some [(getLCIOSubEvent2 dest ev next).totRecord]
        ∧ (getLCIOSubEvent2 dest ev next).failedTot = false))
    ∧ ((∀ recs, dest.mupixColl = some recs →
        (getLCIOSubEvent3 dest ev next nextNext).dest.mupixColl
            = some (recs ++ [(getLCIOSubEvent3 dest ev next nextNext).pixelRecord])
        ∧ (getLCIOSubEvent3 dest ev next nextNext).failedMupix = true)
      ∧ (dest.mupixColl = none →
        (getLCIOSubEvent3 dest ev next nextNext).dest.mupixColl
            = some [(getLCIOSubEvent3 dest ev next nextNext).pixelRecord]
        ∧ (getLCIOSubEvent3 dest ev next nextNext).failedMupix = false)
      ∧ (∀ recs, dest.triggerColl = some recs →
        (getLCIOSubEvent3 dest ev next nextNext).dest.triggerColl
            = some (recs ++ [(getLCIOSubEvent3 dest ev next nextNext).triggerRecord])
        ∧ (getLCIOSubEvent3 dest ev next nextNext).failedTrigger = true)
      ∧ (dest.triggerColl = none →
        (getLCIOSubEvent3 dest ev next nextNext).dest.triggerColl
            = some [(getLCIOSubEvent3 dest ev next nextNext).triggerRecord]
        ∧ (getLCIOSubEvent3 dest ev next nextNext).failedTrigger = false)
      ∧ (∀ recs, dest.totColl = some recs →
        (getLCIOSubEvent3 dest ev next nextNext).dest.totColl
            = some (recs ++ [(getLCIOSubEvent3 dest ev next nextNext).totRecord])
        ∧ (getLCIOSubEvent3 dest ev next nextNext).failedTot = true)
      ∧ (dest.totColl = none →
        (getLCIOSubEvent3 dest ev next nextNext).dest.totColl
            = some [(getLCIOSubEvent3 dest ev next nextNext).totRecord]
        ∧ (getLCIOSubEvent3 dest ev next nextNext).failedTot = false)) := by
  simp only [getLCIOSubEvent2, getLCIOSubEvent3, h1, h2, hr1, hr2, hr3,
    Bool.false_eq_true, if_false]
  refine ⟨⟨?_, ?_, ?_, ?_, ?_, ?_⟩, ⟨?_, ?_, ?_, ?_, ?_, ?_⟩⟩ <;>
    first
      | (intro recs hrec
         rw [hrec, insertStream_some]
         exact ⟨rfl, rfl⟩)
      | (intro hrec
         rw [hrec, insertStream_none]
         exact ⟨rfl, rfl⟩)

/-- Sample destination with a pre-existing (empty) mupix collection and
absent trigger / ToT collections. -/
def mixedLC : LCEvent := ⟨some [], none, none⟩

/-- Witness for C10: pre-existing mupix collection gains the pushed record
and reports failure; absent trigger collection is created with the pushed
record and reports success. -/
theorem c10_push_before_check_witness :
    mixedLC.mupixColl = some [] ∧ mixedLC.triggerColl = none
    ∧ ((getLCIOSubEvent2 mixedLC sampleEvent sampleEvent).dest.mupixColl
          = some ([] ++ [(getLCIOSubEvent2 mixedLC sampleEvent sampleEvent).pixelRecord])
        ∧ (getLCIOSubEvent2 mixedLC sampleEvent sampleEvent).failedMupix = true)
    ∧ ((getLCIOSubEvent2 mixedLC sampleEvent sampleEvent).dest.triggerColl
          = some [(getLCIOSubEvent2 mixedLC sampleEvent sampleEvent).triggerRecord]
        ∧ (getLCIOSubEvent2 mixedLC sampleEvent sampleEvent).failedTrigger = false) :=
  ⟨rfl, rfl,
   (c10_push_before_check mixedLC sampleEvent sampleEvent sampleEvent
      [sampleBlock] [sampleBlock] [sampleBlock] rfl rfl rfl rfl rfl).1.1 [] rfl,
   (c10_push_before_check mixedLC sampleEvent sampleEvent sampleEvent
      [sampleBlock] [sampleBlock] [sampleBlock] rfl rfl rfl rfl rfl).1.2.2.2.1 rfl⟩

/-! ## Quick-look path claims -/

/-- Reduction of the quick-look conversion for a non-special raw event
whose trailing block id exceeds 100. -/
theorem getStd_populated (ev : Event) (bs : List RawBlock)
    (hb : ev.isBORE = false) (he : ev.isEORE = false)
    (hr : ev.rawBlocks = some bs) (hid : 100 < lastId bs) :
    getStandardSubEvent ev
      = ⟨[⟨71, 40, 32, totalHits bs, lastId bs, qlLoop bs 0⟩], [], some true⟩ := by
  simp only [getStandardSubEvent, hr, hb, he, Bool.false_eq_true, if_false]
  rw [if_pos hid]

/-- The quick-look pixel list over the concatenated hits, with the drop
predicate phrased as the design states it. -/
theorem qlLoop_eq_filter_not_quirkDrop (bs : List RawBlock) :
    qlLoop bs 0
      = ((List.enumFrom 0 (bs.flatMap (fun b => b.frame.hits))).filter
          (fun p => !quirkDrop p.2)).map
          (fun p => (⟨p.1, p.2.row, p.2.col, 1⟩ : PixelEntry)) := by
  rw [qlLoop_spec]
  rw [List.filterMap_congr (g := fun p => if !quirkDrop p.2
      then some (⟨p.1, p.2.row, p.2.col, 1⟩ : PixelEntry) else none)
    (fun p _ => by rw [keepQL_eq_not_quirkDrop p.2])]
  exact filterMap_ite_eq_filter_map _ _ _

/-- C5: in the quick-look path, every decoded hit with `row==0 && col==0
&& col<=31 && row<=39` (the `quirkDrop` predicate) is dropped — no pixel
is set for it — and every other hit is kept: the attached plane's pixels
are exactly the non-dropped hits, each at its running index. -/
theorem c5_quicklook_zero_hit_dropped (ev : Event) (bs : List RawBlock)
    (hb : ev.isBORE = false) (he : ev.isEORE = false)
    (hr : ev.rawBlocks = some bs) (hid : 100 < lastId bs) :
    (getStandardSubEvent ev).planes
      = [⟨71, 40, 32, totalHits bs, lastId bs,
          ((List.enumFrom 0 (bs.flatMap (fun b => b.frame.hits))).filter
              (fun p => !quirkDrop p.2)).map
            (fun p => (⟨p.1, p.2.row, p.2.col, 1⟩ : PixelEntry))⟩] := by
  rw [getStd_populated ev bs hb he hr hid, ← qlLoop_eq_filter_not_quirkDrop]

/-- Witness for C5 at the sample event: the (0,0) hit is dropped, the
(5,10) hit survives at index 1. -/
theorem c5_quicklook_zero_hit_dropped_witness :
    sampleEvent.isBORE = false ∧ sampleEvent.isEORE = false
    ∧ sampleEvent.rawBlocks = some [sampleBlock] ∧ 100 < lastId [sampleBlock]
    ∧ (getStandardSubEvent sampleEvent).planes
      = [⟨71, 40, 32, totalHits [sampleBlock], lastId [sampleBlock],
          ((List.enumFrom 0 ([sampleBlock].flatMap (fun b => b.frame.hits))).filter
              (fun p => !quirkDrop p.2)).map
            (fun p => (⟨p.1, p.2.row, p.2.col, 1⟩ : PixelEntry))⟩] :=
  ⟨rfl, rfl, rfl, by decide,
   c5_quicklook_zero_hit_dropped sampleEvent [sampleBlock] rfl rfl rfl (by decide)⟩

/-- C6: after processing a non-BORE/EORE raw event, exactly one plane is
attached: the populated one when the trailing block id exceeds 100, and
otherwise an empty plane with the same 40x32 geometry, the same trailing
block id and declared hit count 0. -/
theorem c6_plane_attachment (ev : Event) (bs : List RawBlock)
    (hb : ev.isBORE = false) (he : ev.isEORE = false)
    (hr : ev.rawBlocks = some bs) (_hne : bs ≠ []) :
    ((100 < lastId bs →
        (getStandardSubEvent ev).planes
          = [⟨71, 40, 32, totalHits bs, lastId bs, qlLoop bs 0⟩])
      ∧ (¬100 < lastId bs →
        (getStandardSubEvent ev).planes = [⟨71, 40, 32, 0, lastId bs, []⟩]))
    ∧ (getStandardSubEvent ev).planes.length = 1 := by
  simp only [getStandardSubEvent, hr, hb, he, Bool.false_eq_true, if_false]
  by_cases hid : 100 < lastId bs
  · rw [if_pos hid]
    exact ⟨⟨fun _ => rfl, fun hc => absurd hid hc⟩, rfl⟩
  · rw [if_neg hid]
    exact ⟨⟨fun hc => absurd hc hid, fun _ => rfl⟩, rfl⟩

/-- Raw event whose trailing block id 7 is below the threshold 100. -/
def lowIdEvent : Event := ⟨false, false, some [⟨7, sampleFrame⟩]⟩

/-- Witness for C6 at a below-threshold event: the empty substitute plane
with the same id and zero declared hits is attached. -/
theorem c6_plane_attachment_witness :
    lowIdEvent.isBORE = false ∧ lowIdEvent.rawBlocks = some [⟨7, sampleFrame⟩]
    ∧ ([⟨7, sampleFrame⟩] : List RawBlock) ≠ []
    ∧ ¬100 < lastId [⟨7, sampleFrame⟩]
    ∧ (getStandardSubEvent lowIdEvent).planes
        = [⟨71, 40, 32, 0, lastId [⟨7, sampleFrame⟩], []⟩]
    ∧ (getStandardSubEvent lowIdEvent).planes.length = 1 :=
  ⟨rfl, rfl, by decide, by decide,
   (c6_plane_attachment lowIdEvent [⟨7, sampleFrame⟩] rfl rfl rfl
      (by decide)).1.2 (by decide),
   (c6_plane_attachment lowIdEvent [⟨7, sampleFrame⟩] rfl rfl rfl
      (by decide)).2⟩

/-- C9: in the quick-look path, the plane's declared hit count is the
total number of decoded hits across all blocks (dropped hits included);
each surviving hit sits at the pixel index equal to its global decoded
position (prior-blocks total plus within-block index); and whenever at
least one hit is dropped, the declared count strictly exceeds the number
of pixels actually set and no pixel occupies a dropped hit's index slot. -/
theorem c9_declared_count_vs_pixels (ev : Event) (bs : List RawBlock)
    (hb : ev.isBORE = false) (he : ev.isEORE = false)
    (hr : ev.rawBlocks = some bs) (hid : 100 < lastId bs) :
    ∃ plane, (getStandardSubEvent ev).planes = [plane]
      ∧ plane.declaredHits = (bs.flatMap (fun b => b.frame.hits)).length
      ∧ plane.pixels
          = ((List.enumFrom 0 (bs.flatMap (fun b => b.frame.hits))).filter
              (fun p => mupixKeepQL p.2.col p.2.row)).map
              (fun p => (⟨p.1, p.2.row, p.2.col, 1⟩ : PixelEntry))
      ∧ ((∃ h ∈ bs.flatMap (fun b => b.frame.hits),
            mupixKeepQL h.col h.row = false) →
          plane.pixels.length < plane.declaredHits
          ∧ ∀ p ∈ List.enumFrom 0 (bs.flatMap (fun b => b.frame.hits)),
              mupixKeepQL p.2.col p.2.row = false →
              p.1 ∉ plane.pixels.map PixelEntry.index) := by
  have hpix : qlLoop bs 0
      = ((List.enumFrom 0 (bs.flatMap (fun b => b.frame.hits))).filter
          (fun p => mupixKeepQL p.2.col p.2.row)).map
          (fun p => (⟨p.1, p.2.row, p.2.col, 1⟩ : PixelEntry)) := by
    rw [qlLoop_spec]
    exact filterMap_ite_eq_filter_map _ _ _
  refine ⟨⟨71, 40, 32, totalHits bs, lastId bs, qlLoop bs 0⟩, ?_, ?_, ?_, ?_⟩
  · rw [getStd_populated ev bs hb he hr hid]
  · exact totalHits_eq_length bs
  · exact hpix
  · rintro ⟨h, hhL, hkf⟩
    constructor
    · show (qlLoop bs 0).length < totalHits bs
      rw [hpix, List.length_map, totalHits_eq_length,
        ← List.enumFrom_length (n := 0)
          (l := bs.flatMap (fun b => b.frame.hits))]
      apply List.length_filter_lt_length_iff_exists.mpr
      have hmem : h ∈ List.map Prod.snd
          (List.enumFrom 0 (bs.flatMap (fun b => b.frame.hits))) := by
        rw [List.enumFrom_map_snd]
        exact hhL
      obtain ⟨p, hpE, hps⟩ := List.mem_map.mp hmem
      refine ⟨p, hpE, ?_⟩
      simp only [hps, hkf]
      exact Bool.false_ne_true
    · intro p hpE hqf hmemIdx
      have hmap : (qlLoop bs 0).map PixelEntry.index
          = ((List.enumFrom 0 (bs.flatMap (fun b => b.frame.hits))).filter
              (fun q => mupixKeepQL q.2.col q.2.row)).map Prod.fst := by
        rw [hpix, List.map_map]
        rfl
      rw [hmap] at hmemIdx
      obtain ⟨q, hqF, hqeq⟩ := List.mem_map.mp hmemIdx
      have hqE : q ∈ List.enumFrom 0 (bs.flatMap (fun b => b.frame.hits)) :=
        (List.mem_filter.mp hqF).1
      have hqt : mupixKeepQL q.2.col q.2.row = true :=
        (List.mem_filter.mp hqF).2
      have hnd : (List.map Prod.fst
          (List.enumFrom 0 (bs.flatMap (fun b => b.frame.hits)))).Nodup := by
        rw [List.enumFrom_map_fst]
        exact List.nodup_range' 0 _
      have hqp : q = p := List.inj_on_of_nodup_map hnd hqE hpE hqeq
      rw [hqp, hqf] at hqt
      exact Bool.false_ne_true hqt

/-- Witness for C9 at the sample event: the (0,0) hit is dropped, so the
declared count 2 exceeds the single set pixel, and index 0 is unset. -/
theorem c9_declared_count_vs_pixels_witness :
    sampleEvent.isBORE = false ∧ sampleEvent.rawBlocks = some [sampleBlock]
    ∧ 100 < lastId [sampleBlock]
    ∧ ∃ plane, (getStandardSubEvent sampleEvent).planes = [plane]
        ∧ plane.declaredHits
            = ([sampleBlock].flatMap (fun b => b.frame.hits)).length
        ∧ plane.pixels
            = ((List.enumFrom 0 ([sampleBlock].flatMap (fun b => b.frame.hits))).filter
                (fun p => mupixKeepQL p.2.col p.2.row)).map
                (fun p => (⟨p.1, p.2.row, p.2.col, 1⟩ : PixelEntry))
        ∧ ((∃ h ∈ [sampleBlock].flatMap (fun b => b.frame.hits),
              mupixKeepQL h.col h.row = false) →
            plane.pixels.length < plane.declaredHits
            ∧ ∀ p ∈ List.enumFrom 0 ([sampleBlock].flatMap (fun b => b.frame.hits)),
                mupixKeepQL p.2.col p.2.row = false →
                p.1 ∉ plane.pixels.map PixelEntry.index) :=
  ⟨rfl, rfl, by decide,
   c9_declared_count_vs_pixels sampleEvent [sampleBlock] rfl rfl rfl (by decide)⟩

/-! ## Run-boundary and cast-failure claims -/

/-- Raw event flagged as begin-of-run. -/
def boreEvent : Event := ⟨true, false, some []⟩

/-- Raw event flagged as end-of-run. -/
def eoreEvent : Event := ⟨false, true, some []⟩

/-- C7: a begin-of-run raw event converts to nothing on every entry point,
emits an error-level diagnostic and returns success; an end-of-run raw
event converts to nothing, emits a warning-level diagnostic and returns
success. -/
theorem c7_run_boundary_noop (dest : LCEvent) (evB evE n2 n3a n3b : Event)
    (bsB bsE : List RawBlock)
    (hrB : evB.rawBlocks = some bsB) (hB : evB.isBORE = true)
    (hrE : evE.rawBlocks = some bsE) (hBn : evE.isBORE = false)
    (hE : evE.isEORE = true) :
    getStandardSubEvent evB
        = ⟨[], [⟨DiagLevel.error, "got BORE during conversion"⟩], some true⟩
    ∧ getLCIOSubEvent2 dest evB n2
        = ⟨[], [], [], dest, false, false, false, [],
            [⟨DiagLevel.error, "got BORE during lcio conversion"⟩], true⟩
    ∧ getLCIOSubEvent3 dest evB n3a n3b
        = ⟨[], [], [], dest, false, false, false, [],
            [⟨DiagLevel.error, "got BORE during lcio conversion"⟩], true⟩
    ∧ getStandardSubEvent evE
        = ⟨[], [⟨DiagLevel.warn, "got EORE during conversion"⟩], some true⟩
    ∧ getLCIOSubEvent2 dest evE n2
        = ⟨[], [], [], dest, false, false, false, [],
            [⟨DiagLevel.warn, "got EORE during lcio conversion"⟩], true⟩
    ∧ getLCIOSubEvent3 dest evE n3a n3b
        = ⟨[], [], [], dest, false, false, false, [],
            [⟨DiagLevel.warn, "got EORE during lcio conversion"⟩], true⟩ := by
  refine ⟨?_, ?_, ?_, ?_, ?_, ?_⟩ <;>
    simp [getStandardSubEvent, getLCIOSubEvent2, getLCIOSubEvent3,
      hrB, hB, hrE, hBn, hE]

/-- Witness for C7 at concrete BORE and EORE events. -/
theorem c7_run_boundary_noop_witness :
    boreEvent.rawBlocks = some [] ∧ boreEvent.isBORE = true
    ∧ eoreEvent.isBORE = false ∧ eoreEvent.isEORE = true
    ∧ getStandardSubEvent boreEvent
        = ⟨[], [⟨DiagLevel.error, "got BORE during conversion"⟩], some true⟩
    ∧ getStandardSubEvent eoreEvent
        = ⟨[], [⟨DiagLevel.warn, "got EORE during conversion"⟩], some true⟩ :=
  ⟨rfl, rfl, rfl, rfl,
   (c7_run_boundary_noop emptyLC boreEvent eoreEvent sampleEvent sampleEvent
      sampleEvent [] [] rfl rfl rfl rfl rfl).1,
   (c7_run_boundary_noop emptyLC boreEvent eoreEvent sampleEvent sampleEvent
      sampleEvent [] [] rfl rfl rfl rfl rfl).2.2.2.1⟩

/-- C8 (code-bug evidence): when the `dynamic_cast` to `RawDataEvent`
fails, the aggregation entry points are no-ops returning success with the
destination untouched, as the claim states; but the quick-look entry point
reaches the end of its `bool`-returning function body without executing
any `return` statement (modelled by `ret = none`), so its returned value
is undefined rather than `true`. -/
theorem c8_cast_failure_behaviour :
    getStandardSubEvent nonRawEvent = ⟨[], [], none⟩
    ∧ (getLCIOSubEvent2 emptyLC nonRawEvent sampleEvent).ret = true
    ∧ (getLCIOSubEvent2 emptyLC nonRawEvent sampleEvent).dest = emptyLC
    ∧ (getLCIOSubEvent2 emptyLC nonRawEvent sampleEvent).pixelRecord = []
    ∧ (getLCIOSubEvent3 emptyLC sampleEvent sampleEvent nonRawEvent).ret = true
    ∧ (getLCIOSubEvent3 emptyLC sampleEvent sampleEvent nonRawEvent).dest = emptyLC :=
  ⟨rfl, rfl, rfl, rfl, rfl, rfl⟩

end Mupix
